import Mathlib

/-!
Verification development for the ai-image-gallery background ingestion pipeline.

Shallow embedding of the TypeScript source:
* `src/src/lib/image-processing.ts` (the dynamic-import variant, the one the
  upload route links against): `generateThumbnail`.
* `src/src/lib/ai-analysis.ts`: the response validation / cleaning performed by
  `analyzeImage` after the OpenAI call returns.
* `src/unnamed/part_015` (`/api/upload-background/route.ts`): `POST`,
  `processUploadInBackground`, `processAIAnalysisInBackground`.
* `src/src/app/api/reanalyze-image/route.ts`: `POST` (the retry path).
* `src/src/hooks/useUploadStatus.ts` (second revision, lines 573-1149):
  `fetchActiveUploads` stuck-job reconciliation and `clearStuckUploads`.
* `src/supabase-setup.sql`: the row-level-security policies that scope every
  read/write of the `images` table to `auth.uid() = user_id`.

External effects (Supabase storage uploads, the OpenAI call, signed-URL
creation, database write errors) are modelled by explicit environment records;
each run of an operation is a pure function of its environment producing the
resulting database, storage state and the ordered trace of row updates.
-/

namespace Gallery

/-! ## Basic types -/

/-- Byte buffers are modelled as lists of bytes (values of `Nat`). -/
abbrev Buffer := List Nat

abbrev UserId := Nat
abbrev ImageId := Nat
abbrev Path := String

/-- The `processing_status` column values, from the `UploadJob` interface in
`src/src/hooks/useUploadStatus.ts`. -/
inductive Status where
  | uploading
  | processing
  | pending
  | ai_processing
  | completed
  | failed
deriving DecidableEq, Repr

/-- Terminal states: `completed` and `failed` (spec glossary; in the hook these
are the statuses scheduled for removal from the active view). -/
def Status.isTerminal : Status → Bool
  | .completed => true
  | .failed => true
  | _ => false

/-- The four statuses queried by the active-set filters
`.in("processing_status", ["uploading","processing","pending","ai_processing"])`
in `useUploadStatus.ts`. -/
def Status.isActive : Status → Bool
  | .uploading => true
  | .processing => true
  | .pending => true
  | .ai_processing => true
  | _ => false

/-! ## Image processing (`src/src/lib/image-processing.ts`, dynamic-import variant)

The `sharp` library is modelled as `Option (Buffer → Option Buffer)`:
`none` means the dynamic `import("sharp")` failed (library unavailable);
`some f` with `f buf = none` means the resize pipeline threw for that input;
`some f` with `f buf = some t` means the pipeline produced thumbnail `t`. -/

/-- Shallow embedding of `generateThumbnail`: try to load sharp, fall back to
the original buffer when sharp is unavailable or the resize throws. -/
def generateThumbnail (sharp : Option (Buffer → Option Buffer))
    (imageBuffer : Buffer) : Buffer :=
  match sharp with
  | none => imageBuffer
  | some f =>
    match f imageBuffer with
    | none => imageBuffer
    | some thumbnail => thumbnail

/-! ## AI analysis (`src/src/lib/ai-analysis.ts`)

The OpenAI chat completion is external; what the source owns is the
validation and cleaning of the parsed JSON response.  A parsed response value
is modelled as a record whose array fields hold `JsonVal` entries (string or
non-string), mirroring the `typeof tag === "string"` filters.  `none` for an
array field models a missing / null / non-array value (the
`!analysisResult.tags || !Array.isArray(...)` check); an empty `description`
models the falsy `!analysisResult.description` check. -/

inductive JsonVal where
  | str (s : String)
  | other
deriving DecidableEq, Repr

structure ParsedAnalysis where
  tags : Option (List JsonVal)
  description : String
  dominantColors : Option (List JsonVal)
deriving DecidableEq, Repr

/-- The `AIAnalysisResult` interface of `ai-analysis.ts`. -/
structure AIAnalysisResult where
  tags : List String
  description : String
  dominantColors : List String
  success : Bool
  error : Option String
deriving DecidableEq, Repr

/-- Character class of the regex `[0-9A-Fa-f]`. -/
def isHexDigit (c : Char) : Bool :=
  (Char.ofNat 48 ≤ c && c ≤ Char.ofNat 57) ||
  (Char.ofNat 65 ≤ c && c ≤ Char.ofNat 70) ||
  (Char.ofNat 97 ≤ c && c ≤ Char.ofNat 102)

/-- The regex test `/^#[0-9A-Fa-f]{6}$/.test(color)`. -/
def isHexColor (s : String) : Bool :=
  s.length == 7 && s.data.head? == some (Char.ofNat 35) &&
    (s.data.drop 1).all isHexDigit

/-- Tag cleaning in `analyzeImage`: keep non-empty strings, then
`.slice(0, 10)`. -/
def cleanTags (ts : List JsonVal) : List String :=
  (ts.filterMap fun v =>
    match v with
    | .str s => if s.length > 0 then some s else none
    | .other => none).take 10

/-- Color cleaning in `analyzeImage`: keep strings matching the hex pattern,
then `.slice(0, 3)`. -/
def cleanColors (cs : List JsonVal) : List String :=
  (cs.filterMap fun v =>
    match v with
    | .str s => if isHexColor s then some s else none
    | .other => none).take 3

/-- The failure result built in the `catch` block of `analyzeImage`. -/
def analysisFailure (msg : String) : AIAnalysisResult :=
  { tags := [], description := "", dominantColors := [],
    success := false, error := some msg }

/-- Shallow embedding of `analyzeImage` given the parsed response content.
`content = none` models every throwing path before validation: no response
content, a JSON parse error, or the OpenAI call itself rejecting.  Structure
validation failure also lands in the `catch` block. -/
def analyzeImage (content : Option ParsedAnalysis) : AIAnalysisResult :=
  match content with
  | none => analysisFailure "No response content from OpenAI"
  | some p =>
    match p.tags, p.dominantColors with
    | some ts, some cs =>
      if p.description = "" then
        analysisFailure "Invalid response structure from OpenAI"
      else
        { tags := cleanTags ts,
          description := p.description.take 500,
          dominantColors := cleanColors cs,
          success := true, error := none }
    | _, _ => analysisFailure "Invalid response structure from OpenAI"

/-! ## The `images` table

One row per submitted file (`supabase-setup.sql`), with the columns the
pipeline reads and writes.  `created_at` and `analyzed_at` are epoch
milliseconds. -/

structure ImageRow where
  id : ImageId
  user_id : UserId
  original_name : String
  mime_type : String
  file_size : Nat
  caption : Option String
  storage_path : Path
  thumbnail_url : Path
  processing_status : Status
  upload_progress : Nat
  tags : Option (List String)
  description : Option String
  dominant_colors : Option (List String)
  ai_analysis_error : Option String
  created_at : Nat
  analyzed_at : Option Nat
deriving DecidableEq, Repr

/-- A partial update, mirroring the field dictionaries passed to
`supabase.from("images").update({...})`.  The outer `Option` is "field present
in the update"; the inner value is what is written (itself an `Option` for
nullable columns, so that writing SQL `null` is representable). -/
structure RowUpdate where
  processing_status : Option Status
  upload_progress : Option Nat
  tags : Option (Option (List String))
  description : Option (Option String)
  dominant_colors : Option (Option (List String))
  ai_analysis_error : Option (Option String)
  analyzed_at : Option (Option Nat)
deriving DecidableEq, Repr

/-- The empty update: no field present. -/
def RowUpdate.empty : RowUpdate :=
  ⟨none, none, none, none, none, none, none⟩

/-- Apply a partial update to a row, field by field. -/
def applyUpdate (u : RowUpdate) (r : ImageRow) : ImageRow :=
  { r with
    processing_status := u.processing_status.getD r.processing_status,
    upload_progress := u.upload_progress.getD r.upload_progress,
    tags := u.tags.getD r.tags,
    description := u.description.getD r.description,
    dominant_colors := u.dominant_colors.getD r.dominant_colors,
    ai_analysis_error := u.ai_analysis_error.getD r.ai_analysis_error,
    analyzed_at := u.analyzed_at.getD r.analyzed_at }

/-! ## Database access under row-level security

Every route uses a Supabase client bound to the caller's session
(`getSupabaseServerClient` / `getSupabaseBrowserClient`, anon key plus
cookies), so the policies of `supabase-setup.sql` apply to every statement:

  CREATE POLICY "Users can view own images"   ON images FOR SELECT USING (auth.uid() = user_id);
  CREATE POLICY "Users can update own images" ON images FOR UPDATE USING (auth.uid() = user_id);

`auth : Option UserId` is the caller's `auth.uid()` (`none` when no session).
A select returns only policy-visible rows that match the query filter; an
update rewrites exactly the policy-visible rows that match the filter. -/

abbrev DB := List ImageRow

/-- The RLS predicate `auth.uid() = user_id`. -/
def rlsOwns (auth : Option UserId) (r : ImageRow) : Bool :=
  auth == some r.user_id

/-- Scoped select: rows visible to `auth` that satisfy the query filter. -/
def dbSelect (auth : Option UserId) (p : ImageRow → Bool) (db : DB) :
    List ImageRow :=
  db.filter fun r => rlsOwns auth r && p r

/-- The `.single()` modifier: succeeds only when the scoped select returns
exactly one row. -/
def dbSelectSingle (auth : Option UserId) (p : ImageRow → Bool) (db : DB) :
    Option ImageRow :=
  match dbSelect auth p db with
  | [r] => some r
  | _ => none

/-- Scoped update: rewrite the policy-visible rows matching the filter. -/
def dbUpdate (auth : Option UserId) (p : ImageRow → Bool) (u : RowUpdate)
    (db : DB) : DB :=
  db.map fun r => if rlsOwns auth r && p r then applyUpdate u r else r

/-! ## Object storage

The `images` bucket is modelled as the list of paths currently present.
`upload` adds a path, `remove(paths)` deletes every listed path. -/

abbrev Store := List Path

def storePut (p : Path) (s : Store) : Store := p :: s

def storeRemove (ps : List Path) (s : Store) : Store :=
  s.filter fun q => !ps.contains q

/-! ## The background executor (`src/unnamed/part_015`)

`processUploadInBackground` and `processAIAnalysisInBackground` are embedded
as pure functions from an environment (the outcomes of their external calls)
to the ordered list of effects they perform: row updates on the job's row
(all of them `.eq("id", imageId)`) and storage puts/removes. -/

inductive Effect where
  | upd (u : RowUpdate)
  | put (p : Path)
  | removeArtifacts (ps : List Path)
deriving DecidableEq, Repr

/-- Outcomes of the executor's external calls.  An `Option String` failure
field carries the thrown / returned error message (`none` means success). -/
structure ExecEnv where
  sharp : Option (Buffer → Option Buffer)
  fileReadErr : Option String
  origUploadErr : Option String
  thumbUploadErr : Option String
  signedUrlOk : Bool
  analysisContent : Option ParsedAnalysis
  now : Nat

/-- Update written on entering `processUploadInBackground`. -/
def updProcessing10 : RowUpdate :=
  { RowUpdate.empty with
    processing_status := some .processing, upload_progress := some 10 }

/-- The bare `update({ upload_progress: n })` writes. -/
def updProgressOnly (n : Nat) : RowUpdate :=
  { RowUpdate.empty with upload_progress := some n }

/-- The catch block of `processUploadInBackground`: `failed`, error message
prefixed with "Upload failed: ", progress reset to 0. -/
def updUploadFailed (msg : String) : RowUpdate :=
  { RowUpdate.empty with
    processing_status := some .failed,
    ai_analysis_error := some (some ("Upload failed: " ++ msg)),
    upload_progress := some 0 }

/-- Update written when storage completed: `pending`, progress 90. -/
def updPending90 : RowUpdate :=
  { RowUpdate.empty with
    processing_status := some .pending, upload_progress := some 90 }

/-- Update written on entering `processAIAnalysisInBackground`. -/
def updAIProcessing95 : RowUpdate :=
  { RowUpdate.empty with
    processing_status := some .ai_processing, upload_progress := some 95 }

/-- Update written on analysis success: results, `completed`, progress 100,
error cleared, `analyzed_at` stamped. -/
def updCompletedAI (res : AIAnalysisResult) (now : Nat) : RowUpdate :=
  { processing_status := some .completed,
    upload_progress := some 100,
    tags := some (some res.tags),
    description := some (some res.description),
    dominant_colors := some (some res.dominantColors),
    ai_analysis_error := some none,
    analyzed_at := some (some now) }

/-- The catch block of `processAIAnalysisInBackground`: `failed`, error
prefixed with "AI analysis failed: ", progress kept at 100. -/
def updAnalysisFailed (msg : String) : RowUpdate :=
  { RowUpdate.empty with
    processing_status := some .failed,
    ai_analysis_error := some (some ("AI analysis failed: " ++ msg)),
    upload_progress := some 100 }

/-- Shallow embedding of `processAIAnalysisInBackground`.  It never touches
storage (it only creates a signed read URL for the stored original). -/
def processAIAnalysisInBackground (env : ExecEnv) : List Effect :=
  Effect.upd updAIProcessing95 ::
  (if !env.signedUrlOk then
    [Effect.upd
      (updAnalysisFailed "Failed to create signed URL for AI analysis")]
  else
    let analysisResult := analyzeImage env.analysisContent
    if analysisResult.success then
      [Effect.upd (updCompletedAI analysisResult env.now)]
    else
      [Effect.upd
        (updAnalysisFailed (analysisResult.error.getD "AI analysis failed"))])

/-- The catch block of `processUploadInBackground`: mark failed, then
best-effort removal of both artifact paths. -/
def uploadCatch (originalFilePath thumbnailFilePath : Path) (msg : String) :
    List Effect :=
  [Effect.upd (updUploadFailed msg),
   Effect.removeArtifacts [originalFilePath, thumbnailFilePath]]

/-- Shallow embedding of `processUploadInBackground`, in source order:
progress 10 (entering `processing`), file-to-buffer, progress 30, thumbnail
generation, progress 50, original upload, progress 70, thumbnail upload
(cleaning up the original on failure), `pending`/90, then the analysis
stage.  Any thrown error lands in `uploadCatch`. -/
def processUploadInBackground (env : ExecEnv) (fileBytes : Buffer)
    (originalFilePath thumbnailFilePath : Path) : List Effect :=
  Effect.upd updProcessing10 ::
  match env.fileReadErr with
  | some e => uploadCatch originalFilePath thumbnailFilePath e
  | none =>
    Effect.upd (updProgressOnly 30) ::
    let _thumbnailBuffer := generateThumbnail env.sharp fileBytes
    Effect.upd (updProgressOnly 50) ::
    match env.origUploadErr with
    | some e =>
      uploadCatch originalFilePath thumbnailFilePath
        ("Failed to upload original: " ++ e)
    | none =>
      Effect.put originalFilePath ::
      Effect.upd (updProgressOnly 70) ::
      match env.thumbUploadErr with
      | some e =>
        Effect.removeArtifacts [originalFilePath] ::
        uploadCatch originalFilePath thumbnailFilePath
          ("Failed to upload thumbnail: " ++ e)
      | none =>
        Effect.put thumbnailFilePath ::
        Effect.upd updPending90 ::
        processAIAnalysisInBackground env

/-- The executor's view of the world: its job row and the storage bucket. -/
structure JobView where
  row : ImageRow
  store : Store
deriving DecidableEq, Repr

def applyEffect (v : JobView) : Effect → JobView
  | .upd u => { v with row := applyUpdate u v.row }
  | .put p => { v with store := storePut p v.store }
  | .removeArtifacts ps => { v with store := storeRemove ps v.store }

def runEffects (v : JobView) (es : List Effect) : JobView :=
  es.foldl applyEffect v

/-- The successive states of the job row along an effect trace, starting
state included. -/
def rowStates (r : ImageRow) : List Effect → List ImageRow
  | [] => [r]
  | Effect.upd u :: es => r :: rowStates (applyUpdate u r) es
  | _ :: es => rowStates r es

/-! ## Batch submission (`POST` of `src/unnamed/part_015`)

The route validates each file in order (image mime type, 10 MB ceiling),
inserts one `images` row with `processing_status = "uploading"` and
`upload_progress = 0` per accepted file, and dispatches
`processUploadInBackground` for it without awaiting.  A validation failure
returns a 400 response for the whole request at once; a failed row insert is
skipped with `continue`.  The generated `Date.now()-random` base filename is
modelled by a per-call counter, so the artifact paths for the n-th created
row are `pathFor`/`thumbPathFor` of the running id. -/

structure FileInfo where
  name : String
  mime : String
  size : Nat
  bytes : Buffer
deriving DecidableEq, Repr

/-- Model of `file.type.startsWith("image/")` by character-list comparison
(kept kernel-computable). -/
def strStartsWith (s p : String) : Bool :=
  List.isPrefixOf p.data s.data

/-- Path of the stored original, `{ownerId}/{generatedName}`. -/
def pathFor (uid : UserId) (n : Nat) : Path :=
  toString uid ++ "/" ++ toString n

/-- Path of the stored thumbnail, `{ownerId}/thumbnails/{generatedName}`. -/
def thumbPathFor (uid : UserId) (n : Nat) : Path :=
  toString uid ++ "/thumbnails/" ++ toString n

/-- The row inserted for an accepted file. -/
def newImageRow (id : ImageId) (uid : UserId) (f : FileInfo)
    (caption : Option String) (now : Nat) : ImageRow :=
  { id := id, user_id := uid,
    original_name := f.name, mime_type := f.mime, file_size := f.size,
    caption := caption,
    storage_path := pathFor uid id, thumbnail_url := thumbPathFor uid id,
    processing_status := .uploading, upload_progress := 0,
    tags := none, description := none,
    dominant_colors := none, ai_analysis_error := none,
    created_at := now, analyzed_at := none }

/-- Responses of the batch-submission route.  The error constructors carry
the name of the offending file, as the 400 bodies do. -/
inductive UploadResp where
  | noFiles
  | notAuthenticated
  | typeError (name : String)
  | sizeError (name : String)
  | ok (jobIds : List ImageId)
deriving DecidableEq, Repr

/-- Result of one run of the route: HTTP response, resulting database, and
the ids of the jobs for which an executor was dispatched. -/
structure UploadRun where
  resp : UploadResp
  db : DB
  dispatched : List ImageId
deriving DecidableEq, Repr

/-- The per-file loop of the route body.  `insertOk i` is whether the insert
of the i-th file succeeds (a failed insert is skipped with `continue`). -/
def uploadLoop (uid : UserId) (caption : Option String)
    (insertOk : Nat → Bool) (now : Nat) :
    List FileInfo → Nat → ImageId → DB → List ImageId → UploadRun
  | [], _, _, db, jobs => ⟨.ok jobs.reverse, db, jobs.reverse⟩
  | f :: rest, idx, nextId, db, jobs =>
    if !strStartsWith f.mime "image/" then
      ⟨.typeError f.name, db, jobs.reverse⟩
    else if f.size > 10 * 1024 * 1024 then
      ⟨.sizeError f.name, db, jobs.reverse⟩
    else if insertOk idx then
      uploadLoop uid caption insertOk now rest (idx + 1) (nextId + 1)
        (db ++ [newImageRow nextId uid f caption now]) (nextId :: jobs)
    else
      uploadLoop uid caption insertOk now rest (idx + 1) nextId db jobs

/-- Shallow embedding of the `POST` handler of the batch-submission route. -/
def uploadPOST (auth : Option UserId) (files : List FileInfo)
    (caption : Option String) (insertOk : Nat → Bool) (startId : ImageId)
    (now : Nat) (db : DB) : UploadRun :=
  if files.isEmpty then ⟨.noFiles, db, []⟩
  else
    match auth with
    | none => ⟨.notAuthenticated, db, []⟩
    | some uid => uploadLoop uid caption insertOk now files 0 startId db []

/-! ## Re-analysis retry (`src/src/app/api/reanalyze-image/route.ts`)

The route reads the image row `.eq("id", imageId).single()` through the
session-bound client (so the RLS select policy applies), creates a signed
read URL for the stored original, writes `processing_status = "processing"`
(clearing the previous error), runs `analyzeImage` and writes the terminal
update.  It never calls `storage.upload` or `storage.remove`, so the store
passes through unchanged. -/

structure ReanalyzeEnv where
  signedUrlOk : Bool
  statusUpdateFails : Bool
  resultUpdateFails : Bool
  saveErrMsg : String
  analysisContent : Option ParsedAnalysis
  now : Nat

inductive ReanalyzeResp where
  | missingId
  | notFound
  | urlFailed
  | statusUpdateFailed
  | saveFailed
  | analysisFailed
  | ok
deriving DecidableEq, Repr

structure ReanalyzeRun where
  resp : ReanalyzeResp
  db : DB
  store : Store
  trace : List RowUpdate
deriving DecidableEq, Repr

/-- Update putting the job back into `processing` and clearing the previous
error.  It does not touch `upload_progress`. -/
def reUpdProcessing : RowUpdate :=
  { RowUpdate.empty with
    processing_status := some .processing, ai_analysis_error := some none }

/-- Terminal update written when saving the successful analysis fails. -/
def reUpdSaveFailed (msg : String) : RowUpdate :=
  { RowUpdate.empty with
    processing_status := some .failed,
    ai_analysis_error := some (some ("Database update failed: " ++ msg)) }

/-- Terminal update on analysis success: results, `completed`, error
cleared, `analyzed_at` stamped.  It does not touch `upload_progress`. -/
def reUpdCompleted (res : AIAnalysisResult) (now : Nat) : RowUpdate :=
  { RowUpdate.empty with
    processing_status := some .completed,
    tags := some (some res.tags),
    description := some (some res.description),
    dominant_colors := some (some res.dominantColors),
    ai_analysis_error := some none,
    analyzed_at := some (some now) }

/-- Terminal update on analysis failure. -/
def reUpdAnalysisFailed (err : Option String) : RowUpdate :=
  { RowUpdate.empty with
    processing_status := some .failed,
    ai_analysis_error := some (some (err.getD "AI re-analysis failed")) }

/-- Shallow embedding of the `POST` handler of the re-analysis route.
`trace` is the ordered list of updates successfully applied to the job row. -/
def reanalyzePOST (auth : Option UserId) (env : ReanalyzeEnv)
    (imageId : Option ImageId) (db : DB) (store : Store) : ReanalyzeRun :=
  match imageId with
  | none => ⟨.missingId, db, store, []⟩
  | some iid =>
    match dbSelectSingle auth (fun r => r.id == iid) db with
    | none => ⟨.notFound, db, store, []⟩
    | some _imageRecord =>
      if !env.signedUrlOk then ⟨.urlFailed, db, store, []⟩
      else if env.statusUpdateFails then ⟨.statusUpdateFailed, db, store, []⟩
      else
        let db1 := dbUpdate auth (fun r => r.id == iid) reUpdProcessing db
        let analysisResult := analyzeImage env.analysisContent
        if analysisResult.success then
          if env.resultUpdateFails then
            let u := reUpdSaveFailed env.saveErrMsg
            ⟨.saveFailed, dbUpdate auth (fun r => r.id == iid) u db1, store,
              [reUpdProcessing, u]⟩
          else
            let u := reUpdCompleted analysisResult env.now
            ⟨.ok, dbUpdate auth (fun r => r.id == iid) u db1, store,
              [reUpdProcessing, u]⟩
        else
          let u := reUpdAnalysisFailed analysisResult.error
          ⟨.analysisFailed, dbUpdate auth (fun r => r.id == iid) u db1, store,
            [reUpdProcessing, u]⟩

/-! ## Status synchronizer (`src/src/hooks/useUploadStatus.ts`, second
revision)

`fetchActiveUploads` queries the owner's rows with an active status,
auto-fails the ones older than five minutes, and `clearStuckUploads`
force-fails every active row of the owner.  Both run through the
session-bound browser client, so the RLS policies apply on top of the
explicit `.eq("user_id", ...)` filters. -/

def timeoutFiveMinutes : Nat := 5 * 60 * 1000

/-- The forced-timeout update of `fetchActiveUploads`. -/
def stuckTimeoutUpdate : RowUpdate :=
  { RowUpdate.empty with
    processing_status := some .failed,
    ai_analysis_error := some (some "Upload timed out after 5 minutes"),
    upload_progress := some 0 }

/-- The stuck-job reconciliation pass inside `fetchActiveUploads`: select
the owner's active rows, keep those whose `created_at` is older than five
minutes, and force them to `failed` by an `.in("id", ...)` update. -/
def fetchActiveUploadsSync (uid : UserId) (now : Nat) (db : DB) : DB :=
  let images := dbSelect (some uid) (fun r => r.processing_status.isActive) db
  let stuckImages := images.filter fun img =>
    img.created_at < now - timeoutFiveMinutes
  if stuckImages.isEmpty then db
  else
    dbUpdate (some uid) (fun r => stuckImages.any fun s => s.id == r.id)
      stuckTimeoutUpdate db

/-- The forced update of `clearStuckUploads`. -/
def clearStuckUpdate : RowUpdate :=
  { RowUpdate.empty with
    processing_status := some .failed,
    ai_analysis_error := some (some "Upload cancelled by user"),
    upload_progress := some 0 }

/-- Shallow embedding of `clearStuckUploads`: force every active row of the
owner to `failed` in one `.eq("user_id", ...).in("processing_status", ...)`
update. -/
def clearStuckUploads (uid : UserId) (db : DB) : DB :=
  dbUpdate (some uid) (fun r => r.processing_status.isActive)
    clearStuckUpdate db

/-! # Theorems -/

/-- C10: the thumbnail transform never fails the job: when the
image-processing library is unavailable or thumbnail generation throws,
`generateThumbnail` returns the original unresized buffer instead of raising
an error, and the executor still advances the job to `pending` when both
storage writes succeed. -/
theorem generateThumbnail_fallback (sharp : Option (Buffer → Option Buffer))
    (buf : Buffer)
    (h : sharp = none ∨ ∃ f, sharp = some f ∧ f buf = none) :
    generateThumbnail sharp buf = buf ∧
    ∀ (env : ExecEnv) (originalFilePath thumbnailFilePath : Path),
      env.fileReadErr = none → env.origUploadErr = none →
      env.thumbUploadErr = none →
      Effect.upd updPending90 ∈
        processUploadInBackground env buf originalFilePath
          thumbnailFilePath := by
  constructor
  · rcases h with h | ⟨f, hf, hb⟩
    · simp [generateThumbnail, h]
    · simp [generateThumbnail, hf, hb]
  · intro env op tp h1 h2 h3
    simp [processUploadInBackground, h1, h2, h3]

theorem generateThumbnail_fallback_witness :
    generateThumbnail none [1, 2, 3] = [1, 2, 3] ∧
    Effect.upd updPending90 ∈ processUploadInBackground
      ⟨none, none, none, none, true, none, 0⟩ [1, 2, 3] "0/1"
      "0/thumbnails/1" := by
  have h := generateThumbnail_fallback none [1, 2, 3] (Or.inl rfl)
  exact ⟨h.1, h.2 ⟨none, none, none, none, true, none, 0⟩ "0/1"
    "0/thumbnails/1" rfl rfl rfl⟩

/-- C9 (amended): every successful `analyzeImage` result has at most 10
tags, all non-empty strings, a description of at most 500 characters, and at
most 3 dominant colors each matching the `#RRGGBB` pattern.  The lower bound
of 5 tags from the interface declaration is not enforced by the code. -/
theorem analyzeImage_success_shape (content : Option ParsedAnalysis)
    (h : (analyzeImage content).success = true) :
    (analyzeImage content).tags.length ≤ 10 ∧
    (∀ t ∈ (analyzeImage content).tags, 0 < t.length) ∧
    (analyzeImage content).description.length ≤ 500 ∧
    (analyzeImage content).dominantColors.length ≤ 3 ∧
    (∀ c ∈ (analyzeImage content).dominantColors, isHexColor c = true) := by
  rcases content with _ | p
  · simp [analyzeImage, analysisFailure] at h
  rcases hts : p.tags with _ | ts
  · simp [analyzeImage, hts, analysisFailure] at h
  rcases hcs : p.dominantColors with _ | cs
  · simp [analyzeImage, hts, hcs, analysisFailure] at h
  by_cases hd : p.description = ""
  · simp [analyzeImage, hts, hcs, hd, analysisFailure] at h
  have heq : analyzeImage (some p) =
      { tags := cleanTags ts,
        description := p.description.take 500,
        dominantColors := cleanColors cs,
        success := true, error := none } := by
    simp [analyzeImage, hts, hcs, hd]
  rw [heq]
  refine ⟨?_, ?_, ?_, ?_, ?_⟩
  · exact List.length_take_le 10 _
  · intro t ht
    have hmem := List.mem_of_mem_take ht
    rw [List.mem_filterMap] at hmem
    obtain ⟨v, _, hv⟩ := hmem
    rcases v with s | _
    · have hv' : (if s.length > 0 then some s else none) = some t := hv
      by_cases hs : s.length > 0
      · rw [if_pos hs] at hv'
        cases hv'
        exact hs
      · rw [if_neg hs] at hv'
        cases hv'
    · cases hv
  · rw [String.take_eq]
    show (String.mk (p.description.1.take 500)).length ≤ 500
    simp only [String.length]
    exact List.length_take_le 500 _
  · exact List.length_take_le 3 _
  · intro c hc
    have hmem := List.mem_of_mem_take hc
    rw [List.mem_filterMap] at hmem
    obtain ⟨v, _, hv⟩ := hmem
    rcases v with s | _
    · have hv' : (if isHexColor s then some s else none) = some c := hv
      by_cases hs : isHexColor s
      · rw [if_pos hs] at hv'
        cases hv'
        exact hs
      · rw [if_neg hs] at hv'
        cases hv'
    · cases hv

theorem analyzeImage_success_shape_witness :
    (analyzeImage (some ⟨some [JsonVal.str "cat", JsonVal.str "pet"],
      "a cat", some [JsonVal.str "#aabbcc"]⟩)).success = true ∧
    (analyzeImage (some ⟨some [JsonVal.str "cat", JsonVal.str "pet"],
      "a cat", some [JsonVal.str "#aabbcc"]⟩)).tags.length ≤ 10 := by
  refine ⟨by decide, ?_⟩
  exact (analyzeImage_success_shape
    (some ⟨some [JsonVal.str "cat", JsonVal.str "pet"], "a cat",
      some [JsonVal.str "#aabbcc"]⟩) (by decide)).1

/-- C9 counterexample: `analyzeImage` can return success with a single tag,
so the claimed lower bound of 5 tags does not hold on the code. -/
theorem analyzeImage_five_tags_cex :
    (analyzeImage
      (some ⟨some [JsonVal.str "cat"], "a cat", some []⟩)).success = true ∧
    ¬ (5 ≤ (analyzeImage
      (some ⟨some [JsonVal.str "cat"], "a cat", some []⟩)).tags.length) := by
  constructor
  · decide
  · have h : (analyzeImage
        (some ⟨some [JsonVal.str "cat"], "a cat",
          some []⟩)).tags.length = 1 := by decide
    omega

/-- One dispatched executor run over the row the orchestrator inserted: the
route calls `processUploadInBackground(imageRecord.id, file,
originalFilePath, thumbnailFilePath, user.id)` right after the insert, with
an initially empty slice of the store for this job's two paths. -/
def execRun (env : ExecEnv) (id uid now0 : Nat) (f : FileInfo)
    (cap : Option String) : JobView :=
  runEffects ⟨newImageRow id uid f cap now0, []⟩
    (processUploadInBackground env f.bytes (pathFor uid id)
      (thumbPathFor uid id))

/-- C5: for a job whose storage phase succeeded and whose analysis
invocation fails, the executor writes `failed` with the analysis failure
reason, keeps progress at 100, leaves tags, description and dominant colors
null, and removes neither stored artifact. -/
theorem analysis_failure_keeps_artifacts
    (env : ExecEnv) (id uid now0 : Nat) (f : FileInfo) (cap : Option String)
    (h1 : env.fileReadErr = none) (h2 : env.origUploadErr = none)
    (h3 : env.thumbUploadErr = none) (h4 : env.signedUrlOk = true)
    (h5 : (analyzeImage env.analysisContent).success = false) :
    (execRun env id uid now0 f cap).row.processing_status = Status.failed ∧
    (execRun env id uid now0 f cap).row.upload_progress = 100 ∧
    (execRun env id uid now0 f cap).row.ai_analysis_error =
      some ("AI analysis failed: " ++
        ((analyzeImage env.analysisContent).error.getD
          "AI analysis failed")) ∧
    (execRun env id uid now0 f cap).row.tags = none ∧
    (execRun env id uid now0 f cap).row.description = none ∧
    (execRun env id uid now0 f cap).row.dominant_colors = none ∧
    pathFor uid id ∈ (execRun env id uid now0 f cap).store ∧
    thumbPathFor uid id ∈ (execRun env id uid now0 f cap).store := by
  obtain ⟨sharp, fre, oue, tue, su, ac, n⟩ := env
  simp only at h1 h2 h3 h4 h5
  subst h1 h2 h3 h4
  simp [execRun, processUploadInBackground, processAIAnalysisInBackground,
    h5, runEffects, applyEffect, applyUpdate, updProcessing10,
    updProgressOnly, updPending90, updAIProcessing95, updAnalysisFailed,
    newImageRow, RowUpdate.empty, storePut]

theorem analysis_failure_keeps_artifacts_witness :
    (execRun ⟨none, none, none, none, true, none, 7⟩ 1 0 0
        ⟨"a.png", "image/png", 4, [0]⟩ none).row.processing_status =
      Status.failed ∧
    (execRun ⟨none, none, none, none, true, none, 7⟩ 1 0 0
        ⟨"a.png", "image/png", 4, [0]⟩ none).row.upload_progress = 100 ∧
    (execRun ⟨none, none, none, none, true, none, 7⟩ 1 0 0
        ⟨"a.png", "image/png", 4, [0]⟩ none).row.ai_analysis_error =
      some ("AI analysis failed: " ++
        ((analyzeImage none).error.getD "AI analysis failed")) ∧
    (execRun ⟨none, none, none, none, true, none, 7⟩ 1 0 0
        ⟨"a.png", "image/png", 4, [0]⟩ none).row.tags = none ∧
    (execRun ⟨none, none, none, none, true, none, 7⟩ 1 0 0
        ⟨"a.png", "image/png", 4, [0]⟩ none).row.description = none ∧
    (execRun ⟨none, none, none, none, true, none, 7⟩ 1 0 0
        ⟨"a.png", "image/png", 4, [0]⟩ none).row.dominant_colors = none ∧
    pathFor 0 1 ∈ (execRun ⟨none, none, none, none, true, none, 7⟩ 1 0 0
        ⟨"a.png", "image/png", 4, [0]⟩ none).store ∧
    thumbPathFor 0 1 ∈ (execRun ⟨none, none, none, none, true, none, 7⟩ 1 0 0
        ⟨"a.png", "image/png", 4, [0]⟩ none).store :=
  analysis_failure_keeps_artifacts ⟨none, none, none, none, true, none, 7⟩
    1 0 0 ⟨"a.png", "image/png", 4, [0]⟩ none rfl rfl rfl rfl rfl

/-- C6: when the original artifact write succeeded and the thumbnail write
fails, the executor removes the already-written original from the store and
marks the job `failed`, leaving no blob of this job behind; when the
thumbnail write succeeds it advances the job to `pending` with progress
90. -/
theorem thumbnail_failure_cleanup
    (env : ExecEnv) (id uid now0 : Nat) (f : FileInfo) (cap : Option String)
    (h1 : env.fileReadErr = none) (h2 : env.origUploadErr = none) :
    (∀ e, env.thumbUploadErr = some e →
      (execRun env id uid now0 f cap).row.processing_status =
        Status.failed ∧
      pathFor uid id ∉ (execRun env id uid now0 f cap).store ∧
      (execRun env id uid now0 f cap).store = []) ∧
    (env.thumbUploadErr = none →
      Effect.upd updPending90 ∈
        processUploadInBackground env f.bytes (pathFor uid id)
          (thumbPathFor uid id)) := by
  obtain ⟨sharp, fre, oue, tue, su, ac, n⟩ := env
  simp only at h1 h2
  subst h1 h2
  constructor
  · intro e he
    simp only at he
    subst he
    simp [execRun, processUploadInBackground, uploadCatch, runEffects,
      applyEffect, applyUpdate, updProcessing10, updProgressOnly,
      updUploadFailed, newImageRow, RowUpdate.empty, storePut, storeRemove]
  · intro he
    simp only at he
    subst he
    simp [processUploadInBackground]

theorem thumbnail_failure_cleanup_witness :
    ((execRun ⟨none, none, none, some "disk full", true, none, 7⟩ 1 0 0
        ⟨"a.png", "image/png", 4, [0]⟩ none).row.processing_status =
      Status.failed ∧
    pathFor 0 1 ∉ (execRun ⟨none, none, none, some "disk full", true, none,
        7⟩ 1 0 0 ⟨"a.png", "image/png", 4, [0]⟩ none).store ∧
    (execRun ⟨none, none, none, some "disk full", true, none, 7⟩ 1 0 0
        ⟨"a.png", "image/png", 4, [0]⟩ none).store = []) ∧
    Effect.upd updPending90 ∈
      processUploadInBackground ⟨none, none, none, none, true, none, 7⟩
        [0] (pathFor 0 1) (thumbPathFor 0 1) := by
  constructor
  · exact (thumbnail_failure_cleanup
      ⟨none, none, none, some "disk full", true, none, 7⟩ 1 0 0
      ⟨"a.png", "image/png", 4, [0]⟩ none rfl rfl).1 "disk full" rfl
  · exact (thumbnail_failure_cleanup ⟨none, none, none, none, true, none, 7⟩
      1 0 0 ⟨"a.png", "image/png", 4, [0]⟩ none rfl rfl).2 rfl

/-- C7: along every executor run, over the row states whose status is still
non-terminal the progress value is monotonically non-decreasing (the only
decreasing write is the one that makes the job terminal), and any state with
status `completed` has progress exactly 100. -/
theorem executor_progress_monotone
    (env : ExecEnv) (id uid now0 : Nat) (f : FileInfo) (cap : Option String) :
    List.Chain'
      (fun a b => b.processing_status.isTerminal = true ∨
        a.upload_progress ≤ b.upload_progress)
      (rowStates (newImageRow id uid f cap now0)
        (processUploadInBackground env f.bytes (pathFor uid id)
          (thumbPathFor uid id))) ∧
    ∀ s ∈ rowStates (newImageRow id uid f cap now0)
        (processUploadInBackground env f.bytes (pathFor uid id)
          (thumbPathFor uid id)),
      s.processing_status = Status.completed → s.upload_progress = 100 := by
  obtain ⟨sharp, fre, oue, tue, su, ac, n⟩ := env
  rcases fre with _ | e1
  case some =>
    constructor <;>
      simp [processUploadInBackground, uploadCatch, rowStates, applyUpdate,
        updProcessing10, updUploadFailed, newImageRow, RowUpdate.empty,
        Status.isTerminal]
  rcases oue with _ | e2
  case some =>
    constructor <;>
      simp [processUploadInBackground, uploadCatch, rowStates, applyUpdate,
        updProcessing10, updProgressOnly, updUploadFailed, newImageRow,
        RowUpdate.empty, Status.isTerminal]
  rcases tue with _ | e3
  case some =>
    constructor <;>
      simp [processUploadInBackground, uploadCatch, rowStates, applyUpdate,
        updProcessing10, updProgressOnly, updUploadFailed, newImageRow,
        RowUpdate.empty, Status.isTerminal]
  rcases su with _ | _
  case false =>
    constructor <;>
      simp [processUploadInBackground, processAIAnalysisInBackground,
        rowStates, applyUpdate, updProcessing10, updProgressOnly,
        updPending90, updAIProcessing95, updAnalysisFailed, newImageRow,
        RowUpdate.empty, Status.isTerminal]
  by_cases hs : (analyzeImage ac).success
  · constructor <;>
      simp [processUploadInBackground, processAIAnalysisInBackground, hs,
        rowStates, applyUpdate, updProcessing10, updProgressOnly,
        updPending90, updAIProcessing95, updCompletedAI, newImageRow,
        RowUpdate.empty, Status.isTerminal]
  · constructor <;>
      simp [processUploadInBackground, processAIAnalysisInBackground, hs,
        rowStates, applyUpdate, updProcessing10, updProgressOnly,
        updPending90, updAIProcessing95, updAnalysisFailed, newImageRow,
        RowUpdate.empty, Status.isTerminal]

/-- Updates preserve list length. -/
theorem dbUpdate_length (auth : Option UserId) (p : ImageRow → Bool)
    (u : RowUpdate) (db : DB) : (dbUpdate auth p u db).length = db.length := by
  simp [dbUpdate]

/-- A terminal status is not in the active set. -/
theorem Status.isActive_eq_false (s : Status)
    (h : s.isTerminal = true) : s.isActive = false := by
  cases s <;> simp_all [Status.isTerminal, Status.isActive]

/-- C2 counterexample: a job created at time 0, still `processing` with
progress 70, observed at time 600000 (10 minutes later), is forced to
`failed` with the timeout message, but its progress is reset to 0 rather
than left unchanged. -/
theorem timeout_reset_progress_cex :
    (fetchActiveUploadsSync 0 600000
      [{ id := 1, user_id := 0, original_name := "a.png",
         mime_type := "image/png", file_size := 4, caption := none,
         storage_path := "0/a", thumbnail_url := "0/thumbnails/a",
         processing_status := Status.processing, upload_progress := 70,
         tags := none, description := none, dominant_colors := none,
         ai_analysis_error := none, created_at := 0,
         analyzed_at := none }]).map ImageRow.upload_progress = [0] ∧
    (fetchActiveUploadsSync 0 600000
      [{ id := 1, user_id := 0, original_name := "a.png",
         mime_type := "image/png", file_size := 4, caption := none,
         storage_path := "0/a", thumbnail_url := "0/thumbnails/a",
         processing_status := Status.processing, upload_progress := 70,
         tags := none, description := none, dominant_colors := none,
         ai_analysis_error := none, created_at := 0,
         analyzed_at := none }]).map ImageRow.processing_status =
      [Status.failed] := by
  constructor <;> rfl

/-- C2 (amended): every job of the owner whose status is still non-terminal
and whose `created_at` is older than the five-minute threshold is forced by
the reconciliation pass to `failed` with the timeout message in
`ai_analysis_error`, and its progress is reset to 0 (not left unchanged). -/
theorem timeout_forces_failed (uid now : Nat) (db : DB) (i : Nat)
    (h : i < db.length)
    (hown : db[i].user_id = uid)
    (hact : db[i].processing_status.isActive = true)
    (hold : db[i].created_at < now - timeoutFiveMinutes) :
    (fetchActiveUploadsSync uid now db)[i]? =
      some { db[i] with processing_status := Status.failed,
                        ai_analysis_error :=
                          some "Upload timed out after 5 minutes",
                        upload_progress := 0 } := by
  have hmem : db[i] ∈ db := List.getElem_mem h
  have hsel : db[i] ∈ dbSelect (some uid)
      (fun r => r.processing_status.isActive) db := by
    simp [dbSelect, List.mem_filter, hmem, rlsOwns, hown, hact]
  have hstuck : db[i] ∈ (dbSelect (some uid)
      (fun r => r.processing_status.isActive) db).filter
        (fun img => img.created_at < now - timeoutFiveMinutes) := by
    simp [List.mem_filter, hsel, hold]
  have hempty : ((dbSelect (some uid)
      (fun r => r.processing_status.isActive) db).filter
        (fun img => img.created_at < now - timeoutFiveMinutes)).isEmpty
          = false :=
    List.isEmpty_eq_false.mpr (List.ne_nil_of_mem hstuck)
  rw [fetchActiveUploadsSync]
  rw [hempty]
  rw [if_neg (by simp)]
  rw [dbUpdate, List.getElem?_map, List.getElem?_eq_getElem h,
    Option.map_some']
  have hguard : (rlsOwns (some uid) db[i] &&
      ((dbSelect (some uid) (fun r => r.processing_status.isActive) db).filter
        (fun img => img.created_at < now - timeoutFiveMinutes)).any
          (fun s => s.id == db[i].id)) = true := by
    rw [Bool.and_eq_true]
    constructor
    · simp [rlsOwns, hown]
    · rw [List.any_eq_true]
      exact ⟨db[i], hstuck, by simp⟩
  rw [if_pos hguard]
  simp [applyUpdate, stuckTimeoutUpdate, RowUpdate.empty]

theorem timeout_forces_failed_witness :
    (fetchActiveUploadsSync 0 600000
      [{ id := 1, user_id := 0, original_name := "a.png",
         mime_type := "image/png", file_size := 4, caption := none,
         storage_path := "0/a", thumbnail_url := "0/thumbnails/a",
         processing_status := Status.processing, upload_progress := 70,
         tags := none, description := none, dominant_colors := none,
         ai_analysis_error := none, created_at := 0,
         analyzed_at := none }])[0]? =
      some { id := 1, user_id := 0, original_name := "a.png",
             mime_type := "image/png", file_size := 4, caption := none,
             storage_path := "0/a", thumbnail_url := "0/thumbnails/a",
             processing_status := Status.failed, upload_progress := 0,
             tags := none, description := none, dominant_colors := none,
             ai_analysis_error := some "Upload timed out after 5 minutes",
             created_at := 0, analyzed_at := none } :=
  timeout_forces_failed 0 600000 _ 0 (by decide) rfl rfl (by decide)

/-- C8: re-applying a forced failure transition (the timeout path of the
reconciliation pass, or the manual clear-stuck operation) to a job already
in a terminal state is a no-op on that job: both operations filter on the
non-terminal statuses, so a terminal row is not selected and keeps its
status and progress. -/
theorem forced_transition_idempotent (uid now : Nat) (db : DB) (i : Nat)
    (h : i < db.length)
    (hids : (db.map ImageRow.id).Nodup)
    (hterm : db[i].processing_status.isTerminal = true) :
    (clearStuckUploads uid db)[i]? = some db[i] ∧
    (fetchActiveUploadsSync uid now db)[i]? = some db[i] := by
  have hact : db[i].processing_status.isActive = false :=
    Status.isActive_eq_false _ hterm
  constructor
  · rw [clearStuckUploads, dbUpdate, List.getElem?_map,
      List.getElem?_eq_getElem h]
    simp [hact]
  · rw [fetchActiveUploadsSync]
    by_cases hempty : ((dbSelect (some uid)
        (fun r => r.processing_status.isActive) db).filter
          (fun img => img.created_at < now - timeoutFiveMinutes)).isEmpty
    · rw [if_pos hempty]
      exact List.getElem?_eq_getElem h
    · rw [if_neg hempty]
      rw [dbUpdate, List.getElem?_map, List.getElem?_eq_getElem h,
        Option.map_some']
      have hguard : ((dbSelect (some uid)
          (fun r => r.processing_status.isActive) db).filter
            (fun img => img.created_at < now - timeoutFiveMinutes)).any
              (fun s => s.id == db[i].id) = false := by
        rw [← Bool.not_eq_true, List.any_eq_true]
        rintro ⟨s, hs, hsid⟩
        have hs1 := List.mem_of_mem_filter hs
        have hs2 : s ∈ db := List.mem_of_mem_filter hs1
        have hsact : s.processing_status.isActive = true := by
          have := List.of_mem_filter hs1
          simpa [rlsOwns] using (Bool.and_eq_true _ _ |>.mp this).2
        have hid : s.id = db[i].id := by simpa using hsid
        have : s = db[i] :=
          List.inj_on_of_nodup_map hids hs2 (List.getElem_mem h) hid
        rw [this] at hsact
        rw [hsact] at hact
        cases hact
      rw [hguard, Bool.and_false]
      simp

theorem forced_transition_idempotent_witness :
    (clearStuckUploads 0
      [{ id := 1, user_id := 0, original_name := "a.png",
         mime_type := "image/png", file_size := 4, caption := none,
         storage_path := "0/a", thumbnail_url := "0/thumbnails/a",
         processing_status := Status.completed, upload_progress := 100,
         tags := none, description := none, dominant_colors := none,
         ai_analysis_error := none, created_at := 0,
         analyzed_at := none }])[0]? =
      some { id := 1, user_id := 0, original_name := "a.png",
             mime_type := "image/png", file_size := 4, caption := none,
             storage_path := "0/a", thumbnail_url := "0/thumbnails/a",
             processing_status := Status.completed, upload_progress := 100,
             tags := none, description := none, dominant_colors := none,
             ai_analysis_error := none, created_at := 0,
             analyzed_at := none } :=
  (forced_transition_idempotent 0 600000
    [{ id := 1, user_id := 0, original_name := "a.png",
       mime_type := "image/png", file_size := 4, caption := none,
       storage_path := "0/a", thumbnail_url := "0/thumbnails/a",
       processing_status := Status.completed, upload_progress := 100,
       tags := none, description := none, dominant_colors := none,
       ai_analysis_error := none, created_at := 0,
       analyzed_at := none }] 0 (by decide) (by decide) (by decide)).1

/-- An update through RLS leaves every row of another owner unchanged. -/
theorem dbUpdate_preserves_unowned (auth : Option UserId)
    (p : ImageRow → Bool) (u : RowUpdate) (db : DB) (i : Nat)
    (h : i < db.length) (hne : auth ≠ some db[i].user_id) :
    (dbUpdate auth p u db)[i]? = some db[i] := by
  rw [dbUpdate, List.getElem?_map, List.getElem?_eq_getElem h,
    Option.map_some']
  have hfalse : rlsOwns auth db[i] = false := by
    simp only [rlsOwns, beq_eq_false_iff_ne, ne_eq]
    exact hne
  rw [hfalse, Bool.false_and]
  simp

/-- Two successive RLS updates leave every row of another owner unchanged. -/
theorem dbUpdate2_preserves_unowned (auth : Option UserId)
    (p1 p2 : ImageRow → Bool) (u1 u2 : RowUpdate) (db : DB) (i : Nat)
    (h : i < db.length) (hne : auth ≠ some db[i].user_id) :
    (dbUpdate auth p2 u2 (dbUpdate auth p1 u1 db))[i]? = some db[i] := by
  have h1 : i < (dbUpdate auth p1 u1 db).length := by
    rw [dbUpdate_length]
    exact h
  have e1 : (dbUpdate auth p1 u1 db)[i]? = some db[i] :=
    dbUpdate_preserves_unowned auth p1 u1 db i h hne
  have e1' : (dbUpdate auth p1 u1 db)[i] = db[i] := by
    rw [List.getElem?_eq_getElem h1] at e1
    exact Option.some.inj e1
  have e2 := dbUpdate_preserves_unowned auth p2 u2
    (dbUpdate auth p1 u1 db) i h1 (by rw [e1']; exact hne)
  rw [e2, e1']

/-- C1: the re-analysis (retry) path is owner-scoped on every read and
write.  The single-row read it performs only ever returns a row of the
calling principal (so a job of a different owner is answered `not found`
before anything is mutated), and every row belonging to a different owner is
left unchanged by the whole operation. -/
theorem reanalyze_owner_scoped (auth : Option UserId) (env : ReanalyzeEnv)
    (iid : ImageId) (db : DB) (store : Store) :
    (∀ r, dbSelectSingle auth (fun x => x.id == iid) db = some r →
      auth = some r.user_id) ∧
    (∀ i, ∀ h : i < db.length, auth ≠ some db[i].user_id →
      ((reanalyzePOST auth env (some iid) db store).db)[i]? =
        some db[i]) := by
  constructor
  · intro r hr
    rw [dbSelectSingle] at hr
    split at hr
    next r' heq =>
      cases hr
      have hmem : r ∈ dbSelect auth (fun x => x.id == iid) db := by
        rw [heq]
        exact List.mem_singleton_self r
      have := List.of_mem_filter hmem
      have howns := (Bool.and_eq_true _ _ |>.mp this).1
      simpa [rlsOwns] using howns
    next =>
      cases hr
  · intro i h hne
    rcases hsel : dbSelectSingle auth (fun x => x.id == iid) db with _ | rec
    · simp only [reanalyzePOST, hsel]
      exact List.getElem?_eq_getElem h
    · rcases hurl : env.signedUrlOk with _ | _
      · simp only [reanalyzePOST, hsel, hurl, Bool.not_false, if_true]
        exact List.getElem?_eq_getElem h
      · rcases hsu : env.statusUpdateFails with _ | _
        · rcases hok : (analyzeImage env.analysisContent).success with _ | _
          · simp only [reanalyzePOST, hsel, hurl, hsu, hok, Bool.not_true,
              if_false, Bool.false_eq_true]
            exact dbUpdate2_preserves_unowned auth _ _ _ _ db i h hne
          · rcases hru : env.resultUpdateFails with _ | _
            · simp only [reanalyzePOST, hsel, hurl, hsu, hok, hru,
                Bool.not_true, if_false, if_true]
              exact dbUpdate2_preserves_unowned auth _ _ _ _ db i h hne
            · simp only [reanalyzePOST, hsel, hurl, hsu, hok, hru,
                Bool.not_true, if_false, if_true]
              exact dbUpdate2_preserves_unowned auth _ _ _ _ db i h hne
        · simp only [reanalyzePOST, hsel, hurl, hsu, Bool.not_true,
            if_false, if_true]
          exact List.getElem?_eq_getElem h

theorem reanalyze_owner_scoped_witness :
    ((reanalyzePOST (some 7) ⟨true, false, false, "", none, 42⟩ (some 5)
      [{ id := 5, user_id := 1, original_name := "a.png",
         mime_type := "image/png", file_size := 4, caption := none,
         storage_path := "1/a", thumbnail_url := "1/thumbnails/a",
         processing_status := Status.failed, upload_progress := 100,
         tags := none, description := none, dominant_colors := none,
         ai_analysis_error := some "AI analysis failed: boom",
         created_at := 0, analyzed_at := none }] []).db)[0]? =
      some { id := 5, user_id := 1, original_name := "a.png",
             mime_type := "image/png", file_size := 4, caption := none,
             storage_path := "1/a", thumbnail_url := "1/thumbnails/a",
             processing_status := Status.failed, upload_progress := 100,
             tags := none, description := none, dominant_colors := none,
             ai_analysis_error := some "AI analysis failed: boom",
             created_at := 0, analyzed_at := none } :=
  (reanalyze_owner_scoped (some 7) ⟨true, false, false, "", none, 42⟩
    5 [{ id := 5, user_id := 1, original_name := "a.png",
         mime_type := "image/png", file_size := 4, caption := none,
         storage_path := "1/a", thumbnail_url := "1/thumbnails/a",
         processing_status := Status.failed, upload_progress := 100,
         tags := none, description := none, dominant_colors := none,
         ai_analysis_error := some "AI analysis failed: boom",
         created_at := 0, analyzed_at := none }] []).2 0 (by decide)
    (by decide)

/-- C4 counterexample: a successful retry run writes the status sequence
`processing` then `completed`: no update ever sets `ai_processing`, contrary
to the claimed `processing → ai_processing` trajectory. -/
theorem reanalyze_skips_ai_processing_cex :
    (reanalyzePOST (some 0)
      ⟨true, false, false, "",
        some ⟨some [JsonVal.str "a"], "desc", some []⟩, 42⟩ (some 5)
      [{ id := 5, user_id := 0, original_name := "a.png",
         mime_type := "image/png", file_size := 4, caption := none,
         storage_path := "0/a", thumbnail_url := "0/thumbnails/a",
         processing_status := Status.failed, upload_progress := 100,
         tags := none, description := none, dominant_colors := none,
         ai_analysis_error := some "AI analysis failed: boom",
         created_at := 0, analyzed_at := none }] []).resp =
      ReanalyzeResp.ok ∧
    ((reanalyzePOST (some 0)
      ⟨true, false, false, "",
        some ⟨some [JsonVal.str "a"], "desc", some []⟩, 42⟩ (some 5)
      [{ id := 5, user_id := 0, original_name := "a.png",
         mime_type := "image/png", file_size := 4, caption := none,
         storage_path := "0/a", thumbnail_url := "0/thumbnails/a",
         processing_status := Status.failed, upload_progress := 100,
         tags := none, description := none, dominant_colors := none,
         ai_analysis_error := some "AI analysis failed: boom",
         created_at := 0, analyzed_at := none }] []).trace.map
        RowUpdate.processing_status) =
      [some Status.processing, some Status.completed] ∧
    some Status.ai_processing ∉ ((reanalyzePOST (some 0)
      ⟨true, false, false, "",
        some ⟨some [JsonVal.str "a"], "desc", some []⟩, 42⟩ (some 5)
      [{ id := 5, user_id := 0, original_name := "a.png",
         mime_type := "image/png", file_size := 4, caption := none,
         storage_path := "0/a", thumbnail_url := "0/thumbnails/a",
         processing_status := Status.failed, upload_progress := 100,
         tags := none, description := none, dominant_colors := none,
         ai_analysis_error := some "AI analysis failed: boom",
         created_at := 0, analyzed_at := none }] []).trace.map
        RowUpdate.processing_status) := by
  refine ⟨rfl, rfl, by decide⟩

/-- C4 (amended): the retry path puts the job back to `processing` (clearing
the previous error) and then invokes the Analysis Client directly, with no
intermediate `ai_processing` transition; on analysis success it converges to
`completed`; and it never creates or removes any storage artifact. -/
theorem reanalyze_retry_behavior (auth : Option UserId) (env : ReanalyzeEnv)
    (iid : ImageId) (db : DB) (store : Store) :
    (reanalyzePOST auth env (some iid) db store).store = store ∧
    (∀ u ∈ (reanalyzePOST auth env (some iid) db store).trace,
      u.processing_status ≠ some Status.ai_processing) ∧
    ((reanalyzePOST auth env (some iid) db store).resp = ReanalyzeResp.ok →
      (reanalyzePOST auth env (some iid) db store).trace =
        [reUpdProcessing,
         reUpdCompleted (analyzeImage env.analysisContent) env.now]) := by
  rcases hsel : dbSelectSingle auth (fun x => x.id == iid) db with _ | rec
  · simp [reanalyzePOST, hsel]
  rcases hurl : env.signedUrlOk with _ | _
  · simp [reanalyzePOST, hsel, hurl]
  rcases hsu : env.statusUpdateFails with _ | _
  · rcases hok : (analyzeImage env.analysisContent).success with _ | _
    · simp [reanalyzePOST, hsel, hurl, hsu, hok, reUpdProcessing,
        reUpdAnalysisFailed, RowUpdate.empty]
    · rcases hru : env.resultUpdateFails with _ | _
      · simp [reanalyzePOST, hsel, hurl, hsu, hok, hru, reUpdProcessing,
          reUpdCompleted, RowUpdate.empty]
      · simp [reanalyzePOST, hsel, hurl, hsu, hok, hru, reUpdProcessing,
          reUpdSaveFailed, RowUpdate.empty]
  · simp [reanalyzePOST, hsel, hurl, hsu]

theorem reanalyze_retry_behavior_witness :
    (reanalyzePOST (some 0)
      ⟨true, false, false, "",
        some ⟨some [JsonVal.str "b"], "img", some []⟩, 42⟩ (some 6)
      [{ id := 6, user_id := 0, original_name := "b.png",
         mime_type := "image/png", file_size := 4, caption := none,
         storage_path := "0/b", thumbnail_url := "0/thumbnails/b",
         processing_status := Status.failed, upload_progress := 100,
         tags := none, description := none, dominant_colors := none,
         ai_analysis_error := some "AI analysis failed: boom",
         created_at := 0, analyzed_at := none }] ["0/b"]).store = ["0/b"] ∧
    (reanalyzePOST (some 0)
      ⟨true, false, false, "",
        some ⟨some [JsonVal.str "b"], "img", some []⟩, 42⟩ (some 6)
      [{ id := 6, user_id := 0, original_name := "b.png",
         mime_type := "image/png", file_size := 4, caption := none,
         storage_path := "0/b", thumbnail_url := "0/thumbnails/b",
         processing_status := Status.failed, upload_progress := 100,
         tags := none, description := none, dominant_colors := none,
         ai_analysis_error := some "AI analysis failed: boom",
         created_at := 0, analyzed_at := none }] ["0/b"]).trace =
      [reUpdProcessing,
       reUpdCompleted (analyzeImage
         (some ⟨some [JsonVal.str "b"], "img", some []⟩)) 42] := by
  constructor
  · exact (reanalyze_retry_behavior (some 0)
      ⟨true, false, false, "",
        some ⟨some [JsonVal.str "b"], "img", some []⟩, 42⟩ 6
      [{ id := 6, user_id := 0, original_name := "b.png",
         mime_type := "image/png", file_size := 4, caption := none,
         storage_path := "0/b", thumbnail_url := "0/thumbnails/b",
         processing_status := Status.failed, upload_progress := 100,
         tags := none, description := none, dominant_colors := none,
         ai_analysis_error := some "AI analysis failed: boom",
         created_at := 0, analyzed_at := none }] ["0/b"]).1
  · exact (reanalyze_retry_behavior (some 0)
      ⟨true, false, false, "",
        some ⟨some [JsonVal.str "b"], "img", some []⟩, 42⟩ 6
      [{ id := 6, user_id := 0, original_name := "b.png",
         mime_type := "image/png", file_size := 4, caption := none,
         storage_path := "0/b", thumbnail_url := "0/thumbnails/b",
         processing_status := Status.failed, upload_progress := 100,
         tags := none, description := none, dominant_colors := none,
         ai_analysis_error := some "AI analysis failed: boom",
         created_at := 0, analyzed_at := none }] ["0/b"]).2.2 (by decide)

/-- The validation the batch route applies to each file: image mime type and
the 10 MB ceiling. -/
def validFile (f : FileInfo) : Bool :=
  strStartsWith f.mime "image/" && !(10 * 1024 * 1024 < f.size)

/-- Loop invariant of the batch route: rows are only appended, every
appended row is a fresh `uploading` row of the calling owner, and the
dispatched executors are exactly the created rows. -/
theorem uploadLoop_spec (uid : UserId) (cap : Option String)
    (insertOk : Nat → Bool) (now : Nat) :
    ∀ (files : List FileInfo) (idx : Nat) (nextId : ImageId) (db : DB)
      (jobs : List ImageId),
      ∃ newRows,
        (uploadLoop uid cap insertOk now files idx nextId db jobs).db =
          db ++ newRows ∧
        (∀ r ∈ newRows, r.user_id = uid ∧
          r.processing_status = Status.uploading ∧
          r.upload_progress = 0) ∧
        (uploadLoop uid cap insertOk now files idx nextId db
          jobs).dispatched = jobs.reverse ++ newRows.map ImageRow.id := by
  intro files
  induction files with
  | nil =>
    intro idx nextId db jobs
    exact ⟨[], by simp [uploadLoop], by simp, by simp [uploadLoop]⟩
  | cons f rest ih =>
    intro idx nextId db jobs
    by_cases hmime : strStartsWith f.mime "image/"
    · by_cases hsize : f.size > 10 * 1024 * 1024
      · refine ⟨[], ?_, by simp, ?_⟩
        · simp [uploadLoop, hmime, hsize]
        · simp [uploadLoop, hmime, hsize]
      · by_cases hins : insertOk idx
        · obtain ⟨rows', e1, e2, e3⟩ := ih (idx + 1) (nextId + 1)
            (db ++ [newImageRow nextId uid f cap now]) (nextId :: jobs)
          have hstep : uploadLoop uid cap insertOk now (f :: rest) idx
              nextId db jobs = uploadLoop uid cap insertOk now rest
                (idx + 1) (nextId + 1)
                (db ++ [newImageRow nextId uid f cap now])
                (nextId :: jobs) := by
            rw [uploadLoop]
            simp [hmime, hsize, hins]
          refine ⟨newImageRow nextId uid f cap now :: rows', ?_, ?_, ?_⟩
          · rw [hstep, e1]
            simp
          · intro r hr
            rcases List.mem_cons.mp hr with hr | hr
            · subst hr
              exact ⟨rfl, rfl, rfl⟩
            · exact e2 r hr
          · rw [hstep, e3]
            simp [newImageRow]
        · obtain ⟨rows', e1, e2, e3⟩ := ih (idx + 1) nextId db jobs
          refine ⟨rows', ?_, e2, ?_⟩
          · rw [uploadLoop]
            simp [hmime, hsize, hins, e1]
          · rw [uploadLoop]
            simp [hmime, hsize, hins, e3]
    · refine ⟨[], ?_, by simp, ?_⟩
      · simp [uploadLoop, hmime]
      · simp [uploadLoop, hmime]

/-- When some file of the list fails validation, the loop never answers with
the success response. -/
theorem uploadLoop_invalid_not_ok (uid : UserId) (cap : Option String)
    (insertOk : Nat → Bool) (now : Nat) :
    ∀ (files : List FileInfo) (idx : Nat) (nextId : ImageId) (db : DB)
      (jobs : List ImageId),
      (∃ f ∈ files, validFile f = false) →
      ∀ ids, (uploadLoop uid cap insertOk now files idx nextId db
        jobs).resp ≠ UploadResp.ok ids := by
  intro files
  induction files with
  | nil =>
    rintro idx nextId db jobs ⟨f, hf, _⟩ ids
    cases hf
  | cons f rest ih =>
    rintro idx nextId db jobs ⟨g, hg, hgbad⟩ ids
    by_cases hmime : strStartsWith f.mime "image/"
    · by_cases hsize : f.size > 10 * 1024 * 1024
      · simp [uploadLoop, hmime, hsize]
      · have hrest : g ∈ rest := by
          rcases List.mem_cons.mp hg with hg | hg
          · subst hg
            have hval : validFile g = true := by
              simp [validFile, hmime, hsize]
            rw [hval] at hgbad
            cases hgbad
          · exact hg
        by_cases hins : insertOk idx
        · rw [uploadLoop]
          have := ih (idx + 1) (nextId + 1)
            (db ++ [newImageRow nextId uid f cap now]) (nextId :: jobs)
            ⟨g, hrest, hgbad⟩ ids
          simpa [hmime, hsize, hins] using this
        · rw [uploadLoop]
          have := ih (idx + 1) nextId db jobs ⟨g, hrest, hgbad⟩ ids
          simpa [hmime, hsize, hins] using this
    · simp [uploadLoop, hmime]

/-- C3 counterexample: a batch with one valid image followed by one
non-image file is reported as a whole-batch failure naming the second file,
with no job-id list, even though the first file's job row was created and
its executor dispatched (and is not rolled back). -/
theorem batch_validation_aborts_cex :
    (uploadPOST (some 0)
      [⟨"cat.jpg", "image/jpeg", 100, []⟩,
       ⟨"doc.pdf", "application/pdf", 100, []⟩] none
      (fun _ => true) 10 0 []).resp = UploadResp.typeError "doc.pdf" ∧
    ((uploadPOST (some 0)
      [⟨"cat.jpg", "image/jpeg", 100, []⟩,
       ⟨"doc.pdf", "application/pdf", 100, []⟩] none
      (fun _ => true) 10 0 []).db.map ImageRow.id) = [10] ∧
    ((uploadPOST (some 0)
      [⟨"cat.jpg", "image/jpeg", 100, []⟩,
       ⟨"doc.pdf", "application/pdf", 100, []⟩] none
      (fun _ => true) 10 0 []).db.map ImageRow.processing_status) =
      [Status.uploading] ∧
    (uploadPOST (some 0)
      [⟨"cat.jpg", "image/jpeg", 100, []⟩,
       ⟨"doc.pdf", "application/pdf", 100, []⟩] none
      (fun _ => true) 10 0 []).dispatched = [10] := by
  refine ⟨rfl, rfl, rfl, rfl⟩

/-- C3 (amended): the batch route creates a job row and dispatches an
executor for each accepted file preceding the first validation failure, and
never rolls back or deletes sibling rows; but when any file fails
validation, the response is a whole-batch error (no job-id set and no
per-file rejection list is returned). -/
theorem uploadPOST_partial_batch (uid : UserId) (files : List FileInfo)
    (cap : Option String) (insertOk : Nat → Bool) (startId now : Nat)
    (db : DB) :
    (∃ newRows,
      (uploadPOST (some uid) files cap insertOk startId now db).db =
        db ++ newRows ∧
      (∀ r ∈ newRows, r.user_id = uid ∧
        r.processing_status = Status.uploading ∧
        r.upload_progress = 0) ∧
      (uploadPOST (some uid) files cap insertOk startId now
        db).dispatched = newRows.map ImageRow.id) ∧
    ((∃ f ∈ files, validFile f = false) →
      ∀ ids, (uploadPOST (some uid) files cap insertOk startId now
        db).resp ≠ UploadResp.ok ids) := by
  cases files with
  | nil =>
    constructor
    · exact ⟨[], by simp [uploadPOST], by simp, by simp [uploadPOST]⟩
    · rintro ⟨f, hf, _⟩ ids
      cases hf
  | cons f rest =>
    constructor
    · obtain ⟨newRows, e1, e2, e3⟩ :=
        uploadLoop_spec uid cap insertOk now (f :: rest) 0 startId db []
      refine ⟨newRows, ?_, e2, ?_⟩
      · simpa [uploadPOST] using e1
      · simpa [uploadPOST] using e3
    · intro hbad ids
      have := uploadLoop_invalid_not_ok uid cap insertOk now (f :: rest) 0
        startId db [] hbad ids
      simpa [uploadPOST] using this

theorem uploadPOST_partial_batch_witness :
    (uploadPOST (some 0)
      [⟨"cat.jpg", "image/jpeg", 100, []⟩,
       ⟨"doc.pdf", "application/pdf", 100, []⟩] none
      (fun _ => true) 10 0 []).resp ≠ UploadResp.ok [10] :=
  (uploadPOST_partial_batch 0
    [⟨"cat.jpg", "image/jpeg", 100, []⟩,
     ⟨"doc.pdf", "application/pdf", 100, []⟩] none (fun _ => true)
    10 0 []).2 ⟨⟨"doc.pdf", "application/pdf", 100, []⟩, by simp,
      by decide⟩ [10]

theorem executor_progress_monotone_witness :
    List.Chain'
      (fun a b => b.processing_status.isTerminal = true ∨
        a.upload_progress ≤ b.upload_progress)
      (rowStates (newImageRow 1 0 ⟨"a.png", "image/png", 4, [0]⟩ none 0)
        (processUploadInBackground ⟨none, none, none, none, true, none, 7⟩
          [0] (pathFor 0 1) (thumbPathFor 0 1))) :=
  (executor_progress_monotone ⟨none, none, none, none, true, none, 7⟩ 1 0 0
    ⟨"a.png", "image/png", 4, [0]⟩ none).1

end Gallery
